import Mathlib

/-!
Shallow embedding of the zentra-api route-set code generator
(`zentra_api/cli/constants/routes.py`, `zentra_api/cli/commands/add.py`,
`zentra_api/cli/commands/setup.py`, `zentra_api/auth/utils.py`) together with
theorems settling the frozen claims about it.

Python strings become Lean `String`s, Python lists become Lean `List`s, the
`StrEnum`s become inductive types carrying their string values, and the
nondeterministic enumeration order of `list(set(...))` is modelled by a
predicate over admissible output lists.
-/

namespace ZentraApi

/-- A route parameter: a `(name, type)` pair, as in the Python tuples. -/
abbrev Param := String × String

/-- The `RouteMethods` StrEnum from `cli/constants/enums.py`. -/
inductive RouteMethods where
  | get
  | post
  | put
  | patch
  | delete
deriving DecidableEq

/-- The string value carried by each `RouteMethods` member. -/
def methodStr : RouteMethods → String
  | .get => "get"
  | .post => "post"
  | .put => "put"
  | .patch => "patch"
  | .delete => "delete"

/-- The `RouteMethodType` StrEnum from `cli/constants/enums.py`:
human readable variants of the HTTP methods. -/
def RouteMethodType : RouteMethods → String
  | .get => "Get"
  | .post => "Create"
  | .put => "Update"
  | .patch => "Update"
  | .delete => "Delete"

/-- The eleven values of the `RouteOptions` StrEnum from `cli/constants/enums.py`. -/
def RouteOptionsValues : List String :=
  ["crud", "cr", "cu", "cd", "ru", "rd", "ud", "cru", "crd", "cud", "rud"]

/-- Python `str.lower()` restricted to ASCII data, as used on route names. -/
def pyLower (s : String) : String := String.mk (s.data.map Char.toLower)

/-- Python `str.title()` on ASCII data: an alphabetic character is uppercased
when the previous character is not alphabetic and lowercased otherwise. -/
def pyTitleAux : Bool → List Char → List Char
  | _, [] => []
  | prevCased, c :: cs =>
    if c.isAlpha then
      (if prevCased then c.toLower else c.toUpper) :: pyTitleAux true cs
    else
      c :: pyTitleAux false cs

/-- Python `str.title()` (ASCII fragment). -/
def pyTitle (s : String) : String := String.mk (pyTitleAux false s.data)

/-- The `status_codes` dictionary from `cli/constants/routes.py`. -/
def status_codes (c : Nat) : Option String :=
  if c = 200 then some "HTTP_200_OK"
  else if c = 201 then some "HTTP_201_CREATED"
  else if c = 202 then some "HTTP_202_ACCEPTED"
  else if c = 400 then some "HTTP_400_BAD_REQUEST"
  else if c = 401 then some "HTTP_401_UNAUTHORIZED"
  else none

/-- The `Name` model from `cli/constants/routes.py`: singular and plural
variants of a resource name. -/
structure Name where
  singular : String
  plural : String
deriving DecidableEq

/-- The `Route` model from `cli/constants/routes.py`, with its explicit
constructor fields.  Derived values (`func_name`, `response_model`,
`schema_model`) are functions below; the in-place finalization of
`parameters` and `response_codes` by `model_post_init` is modelled by
`pyListSetUnion`. -/
structure Route where
  name : String
  method : RouteMethods
  route : String
  status_code : Nat
  response_codes : List Nat := []
  parameters : List Param := []
  content : String := "pass"
  multi : Bool := false
  auth : Bool := true
deriving DecidableEq

/-- Modelled from the spec: the `RouteMethods.values(ignore=...)` classmethod is
absent from the source snapshot; it lists the enum values in declaration order
without the ignored ones. -/
def RouteMethodsValues (ignore : List String) : List String :=
  (["get", "post", "put", "patch", "delete"]).filter (fun v => ¬ v ∈ ignore)

/-- Modelled from the spec: the `RouteResponseCodes.AUTH` value is absent from
the source snapshot; the spec states `auth` adds the codes 401 and 403. -/
def RouteResponseCodesAUTH : List Nat := [401, 403]

/-- Modelled from the spec: the `RouteResponseCodes.BAD_REQUEST` value is absent
from the source snapshot; the spec states non-GET methods add the code 400. -/
def RouteResponseCodesBAD : List Nat := [400]

/-- Modelled from the spec: the `RouteParameters.ID` value, the `id: int`
parameter of the generated signatures. -/
def ParamID : Param := ("id", "int")

/-- Modelled from the spec: the `RouteParameters.DB_DEPEND` value, the database
dependency parameter of the generated signatures. -/
def ParamDB : Param := ("db", "DB_DEPEND")

/-- Modelled from the spec: the `RouteParameters.AUTH_DEPEND` value, the
authenticated-user dependency parameter of the generated signatures. -/
def ParamAUTH : Param := ("current_user", "ACTIVE_USER_DEPEND")

/-- Embeds `RouteDefaultDetails.set_response_codes` from `cli/constants/routes.py`. -/
def set_response_codes (method : RouteMethods) (auth : Bool) : List Nat :=
  (if auth then RouteResponseCodesAUTH else []) ++
    (if methodStr method ∈ RouteMethodsValues ["get"] then RouteResponseCodesBAD else [])

/-- Embeds `RouteDefaultDetails.set_parameters` from `cli/constants/routes.py`.
The `if self.schema_model:` truthiness test is on the optional string. -/
def set_parameters (method : RouteMethods) (multi : Bool) (name : String)
    (schema_model : Option String) (auth : Bool) : List Param :=
  (if methodStr method ∈ RouteMethodsValues ["post"] ∧ multi = false
    then [ParamID] else []) ++
  (match schema_model with
    | some m => if m = "" then [] else [(name, m)]
    | none => []) ++
  [ParamDB] ++
  (if auth then [ParamAUTH] else [])

/-- Embeds `Route.set_response_model` from `cli/constants/routes.py`, as a function of
the constructor arguments it reads. -/
def set_response_model (method : RouteMethods) (name : String) : Option String :=
  if method = .delete then none
  else some (RouteMethodType method ++ pyTitle name ++ "Response")

/-- Embeds `Route.set_schema_model` from `cli/constants/routes.py`. -/
def set_schema_model (method : RouteMethods) (name : String) : Option String :=
  if methodStr method ∈ ["get", "delete"] then none
  else some (pyTitle name ++ RouteMethodType method)

/-- The `_func_name` derivation in `Route.model_post_init`:
`f"{self.method.lower()}_{self.name.lower()}"`. -/
def func_name (method : RouteMethods) (name : String) : String :=
  pyLower (methodStr method) ++ "_" ++ pyLower name

/-- The semantics of `list(set(xs).union(set(ys)))` used by
`Route.model_post_init` to finalize `parameters` and `response_codes`:
the output is some duplicate-free enumeration of the union, in an order the
language does not specify. -/
def pyListSetUnion {α : Type} [DecidableEq α] (xs ys out : List α) : Prop :=
  out.Nodup ∧ (∀ a ∈ out, a ∈ xs ∨ a ∈ ys) ∧
    (∀ a ∈ xs, a ∈ out) ∧ (∀ a ∈ ys, a ∈ out)

instance {α : Type} [DecidableEq α] (xs ys out : List α) :
    Decidable (pyListSetUnion xs ys out) := by
  unfold pyListSetUnion
  infer_instance

/-- Embeds `Route.params_to_str` from `cli/constants/routes.py`. -/
def params_to_str (params : List Param) : String :=
  if params.isEmpty then ""
  else String.intercalate ", " (params.map (fun p => p.1 ++ ": " ++ p.2))

/-- Embeds `Route.indent` from `cli/constants/routes.py` at its default of 4 spaces. -/
def indent (line : String) : String := "    " ++ line

/-- Python `repr` of a list of integers, as interpolated by
`f"responses=get_response_models({self.response_codes}),"`. -/
def pyIntListRepr (xs : List Nat) : String :=
  "[" ++ String.intercalate ", " (xs.map toString) ++ "]"

/-- Rendering of an optional string under Python f-string interpolation:
`None` prints as the text "None". -/
def optStr : Option String → String
  | some s => s
  | none => "None"

/-- Embeds `Route.to_str` from `cli/constants/routes.py` (lines 180-201), over a route
whose `response_codes` and `parameters` fields hold their finalized values.
Note the source method takes no `Name` argument and renders the `content`
field (default "pass") as the whole function body. -/
def Route.to_str (r : Route) : String :=
  let text1 : List String :=
    ["@router." ++ methodStr r.method ++ "(",
     indent ("\"" ++ r.route ++ "\","),
     indent ("status_code=status." ++ optStr (status_codes r.status_code) ++ ",")]
  let text2 : List String :=
    if r.response_codes.isEmpty then text1
    else text1 ++
      [indent ("responses=get_response_models(" ++ pyIntListRepr r.response_codes ++ "),")]
  let text3 : List String :=
    text2 ++
      [indent ("response_model=" ++ optStr (set_response_model r.method r.name) ++ ","),
       ")",
       "async def " ++ func_name r.method r.name ++ "(" ++ params_to_str r.parameters ++ "):",
       indent r.content]
  String.intercalate "\n" text3

/-- The canonical list-GET route built by `route_dict_set` (key "r1"). -/
def routeR1 (name : Name) : Route :=
  { name := name.plural, method := .get, route := "", status_code := 200, multi := true }

/-- The canonical get-by-id route built by `route_dict_set` (key "r2"). -/
def routeR2 (name : Name) : Route :=
  { name := name.singular, method := .get, route := "/{id}", status_code := 200 }

/-- The canonical create route built by `route_dict_set` (key "c"). -/
def routeC (name : Name) : Route :=
  { name := name.singular, method := .post, route := "", status_code := 201 }

/-- The canonical update route built by `route_dict_set` (key "u"). -/
def routeU (name : Name) : Route :=
  { name := name.singular, method := .put, route := "/{id}", status_code := 202 }

/-- The canonical delete route built by `route_dict_set` (key "d"). -/
def routeD (name : Name) : Route :=
  { name := name.singular, method := .delete, route := "/{id}", status_code := 202 }

/-- Embeds `route_dict_set` from `cli/constants/routes.py`: the canonical route
dictionary in its insertion order, as an association list. -/
def route_dict_set (name : Name) : List (String × Route) :=
  [("r1", routeR1 name),
   ("r2", routeR2 name),
   ("c", routeC name),
   ("u", routeU name),
   ("d", routeD name)]

/-- Embeds `AddRouteTasks._get_routes` from `cli/commands/add.py` (lines 165-174):
for each dictionary entry in order, for each letter of the option, the route is
appended when the letter occurs in the key. -/
def get_routes (routeMap : List (String × Route)) (opt : String) : List Route :=
  (routeMap.map (fun kr =>
    (opt.data.filter (fun letter => kr.1.data.contains letter)).map (fun _ => kr.2))).flatten

/-- Claim C2: for every `Name` and every defined `RouteOptions` value, the
route-set resolver returns exactly the canonical routes whose dictionary key
contains at least one letter of the option string, in the fixed dictionary
insertion order `r1, r2, c, u, d`, each matched route appearing exactly once;
in particular "crud" yields all five routes in that order, "cr" yields
`[r1, r2, c]`, and "ud" yields `[u, d]`. -/
theorem resolver_matches_canonical_filter (name : Name) (opt : String)
    (h : opt ∈ RouteOptionsValues) :
    get_routes (route_dict_set name) opt
      = ((route_dict_set name).filter
          (fun kr => kr.1.data.any (fun c => opt.data.contains c))).map Prod.snd
    ∧ get_routes (route_dict_set name) "crud" = (route_dict_set name).map Prod.snd
    ∧ get_routes (route_dict_set name) "cr" = [routeR1 name, routeR2 name, routeC name]
    ∧ get_routes (route_dict_set name) "ud" = [routeU name, routeD name] := by
  refine ⟨?_, rfl, rfl, rfl⟩
  fin_cases h <;> rfl

/-- Claim C2 witness: the resolver theorem applied to the concrete name
project/projects and the option "ud". -/
theorem resolver_matches_canonical_filter_witness :
    get_routes (route_dict_set { singular := "project", plural := "projects" }) "ud"
      = [routeU { singular := "project", plural := "projects" },
         routeD { singular := "project", plural := "projects" }] :=
  (resolver_matches_canonical_filter
    { singular := "project", plural := "projects" } "ud" (by decide)).2.2.2

/-- Claim C6: for every constructed route, `response_model` is `None` iff the
method is DELETE and otherwise `HumanVerb(method) ++ Title(name) ++ "Response"`
with GET mapped to "Get", POST to "Create" and PUT/PATCH to "Update";
`schema_model` is `None` iff the method is GET or DELETE and otherwise
`Title(name) ++ HumanVerb(method)`; and `func_name` is the lower-cased
`method ++ "_" ++ name`. -/
theorem derived_names_characterization (m : RouteMethods) (name : String) :
    (set_response_model m name = none ↔ m = .delete)
    ∧ (m ≠ .delete →
        set_response_model m name = some (RouteMethodType m ++ pyTitle name ++ "Response"))
    ∧ (set_schema_model m name = none ↔ (m = .get ∨ m = .delete))
    ∧ (¬ (m = .get ∨ m = .delete) →
        set_schema_model m name = some (pyTitle name ++ RouteMethodType m))
    ∧ func_name m name = pyLower (methodStr m) ++ "_" ++ pyLower name
    ∧ RouteMethodType .get = "Get" ∧ RouteMethodType .post = "Create"
    ∧ RouteMethodType .put = "Update" ∧ RouteMethodType .patch = "Update" := by
  cases m <;>
    simp [set_response_model, set_schema_model, func_name, RouteMethodType, methodStr]

/-- Claim C6 witness: the characterization applied to the POST method and the
name "product". -/
theorem derived_names_characterization_witness :
    set_response_model .post "product" = some (RouteMethodType .post ++ pyTitle "product" ++ "Response")
    ∧ set_schema_model .post "product" = some (pyTitle "product" ++ RouteMethodType .post) :=
  ⟨(derived_names_characterization .post "product").2.1 (by decide),
   (derived_names_characterization .post "product").2.2.2.1 (by decide)⟩

/-- The decorator and signature lines shared by the spec expected single-GET
block and the source rendering, for the finalized route below. -/
def specGetSingleHeader : List String :=
  ["@router.get(",
   "    \"/{id}\",",
   "    status_code=status.HTTP_200_OK,",
   "    responses=get_response_models([401, 403]),",
   "    response_model=GetProductResponse,",
   ")",
   "async def get_product(id: int, db: DB_DEPEND, current_user: ACTIVE_USER_DEPEND):"]

/-- The literal text block of spec section 8 for the single-GET route on
"products": header plus the CONNECT-based body. -/
def specGetSingleLiteral : String :=
  String.intercalate "\n"
    (specGetSingleHeader ++
      ["    product = CONNECT.products.get(db, id)",
       "",
       "    return GetProductResponse(",
       "        code=status.HTTP_200_OK,",
       "        data=product.model_dump(),",
       "    )"])

/-- The canonical single-GET route on `Name(singular="product",
plural="products")` after finalization, with the union of explicit and default
parameters and response codes enumerated in the order the spec itself expects.
The enumeration order of `list(set(...))` is not specified by the language;
this choice is the one most favourable to the claim. -/
def getSingleProductFinal : Route :=
  { name := "product", method := .get, route := "/{id}", status_code := 200,
    response_codes := [401, 403],
    parameters := [ParamID, ParamDB, ParamAUTH] }

set_option maxRecDepth 20000 in
/-- Claim C1: evaluation of the source `Route.to_str` at the single-GET
canonical route for "product".  The source method takes no `Name` argument and
renders the `content` field, so the produced block ends in the stub body
`pass` and differs from the spec section 8 literal, even with the
claim-favourable enumeration of the parameter and response-code unions. -/
theorem single_get_render_ends_in_stub_body :
    Route.to_str getSingleProductFinal
      = String.intercalate "\n" (specGetSingleHeader ++ ["    pass"])
    ∧ Route.to_str getSingleProductFinal ≠ specGetSingleLiteral
    ∧ pyListSetUnion ([] : List Param)
        (set_parameters .get false "product" (set_schema_model .get "product") true)
        getSingleProductFinal.parameters
    ∧ pyListSetUnion ([] : List Nat) (set_response_codes .get true)
        getSingleProductFinal.response_codes := by
  refine ⟨by decide, by decide, by decide, by decide⟩

/-- Claim C3: the default parameter list built by
`RouteDefaultDetails.set_parameters` for the single-GET route does end with the
db dependency followed by the auth dependency, but `Route.model_post_init`
finalizes `parameters` as `list(set(explicit).union(set(defaults)))`, whose
enumeration order is unspecified: the enumeration
`[current_user, db, id]` is admissible for that union and does not end with
the db and auth dependencies. -/
theorem finalized_parameter_order_not_guaranteed :
    pyListSetUnion ([] : List Param)
      (set_parameters .get false "product" (set_schema_model .get "product") true)
      [ParamAUTH, ParamDB, ParamID]
    ∧ List.isSuffixOf [ParamDB, ParamAUTH] [ParamAUTH, ParamDB, ParamID] = false
    ∧ List.isSuffixOf [ParamDB, ParamAUTH]
        (set_parameters .get false "product" (set_schema_model .get "product") true) = true :=
  ⟨by decide, by decide, by decide⟩

/-- The `Import` model from `cli/constants`: one
`from root.modules import items` statement group. -/
structure Import where
  root : String
  modules : List String
  items : List String
  add_dot : Bool := true
deriving DecidableEq

/-- Modelled from the spec: the auth member of the `RouteImports` enum is
absent from the source snapshot; it renders as
`from app.auth import ACTIVE_USER_DEPEND`. -/
def authImport : Import :=
  { root := "app", modules := ["auth"], items := ["ACTIVE_USER_DEPEND"] }

/-- Modelled from the spec: the `RouteImports.BASE` value is absent from the
source snapshot; its two entries render as
`from app.core.dependencies import DB_DEPEND` and
`from app.db_models import CONNECT`. -/
def RouteImportsBASE : List Import :=
  [{ root := "app", modules := ["core", "dependencies"], items := ["DB_DEPEND"] },
   { root := "app", modules := ["db_models"], items := ["CONNECT"] }]

/-- Modelled from the spec: the `RouteImports.AUTH` value is absent from the
source snapshot; it holds the single auth import. -/
def RouteImportsAUTH : List Import := [authImport]

/-- Modelled from the spec: the `RouteImports.ZENTRA` value is absent from the
source snapshot; it renders as
`from zentra_api.responses import SuccessMsgResponse, get_response_models`. -/
def RouteImportsZENTRA : List Import :=
  [{ root := "zentra_api", modules := ["responses"],
     items := ["SuccessMsgResponse", "get_response_models"] }]

/-- Modelled from the spec: the `RouteImports.FASTAPI` value is absent from the
source snapshot; it renders as
`from fastapi import APIRouter, HTTPException, status`. -/
def RouteImportsFASTAPI : List Import :=
  [{ root := "fastapi", modules := [], items := ["APIRouter", "HTTPException", "status"] }]

/-- Embeds `route_imports` from `cli/constants/routes.py` (lines 249-264) as a state
transformer: `base = RouteImports.BASE.value` aliases the shared enum list and
`base.extend(RouteImports.AUTH.value)` mutates it in place, so the state is
the current contents of `RouteImports.BASE` and each call with `add_auth`
returns and persists the extended list. -/
def route_imports (base : List Import) (add_auth : Bool) :
    List (List Import) × List Import :=
  let b := if add_auth then base ++ RouteImportsAUTH else base
  ([b, RouteImportsZENTRA, RouteImportsFASTAPI], b)

/-- Claim C4: `route_imports(add_auth=True)` is not idempotent across calls in
one process.  Starting from the pristine `RouteImports.BASE` list, the second
call returns a base group holding the auth import twice and the third call one
holding it three times, and the result of the second call differs from that of
the first. -/
theorem route_imports_accumulates_auth_entries :
    ((route_imports (route_imports RouteImportsBASE true).2 true).1.getD 0 []).count
        authImport = 2
    ∧ ((route_imports
          (route_imports (route_imports RouteImportsBASE true).2 true).2 true).1.getD 0
            []).count authImport = 3
    ∧ route_imports (route_imports RouteImportsBASE true).2 true
        ≠ route_imports RouteImportsBASE true :=
  ⟨by decide, by decide, by decide⟩

/-- Modelled from the spec: the `RouteErrorCodes` and `RouteSuccessCodes`
enums are absent from the source snapshot; `build` exits with `FOLDER_EXISTS`
on conflict and `CREATED` on success. -/
inductive RouteCode where
  | FOLDER_EXISTS
  | CREATED
deriving DecidableEq

/-- Modelled from the spec: the `RouteFile` enum values are absent from the
source snapshot; the generated folder holds `__init__.py`, `responses.py` and
`schema.py`. -/
def routeFileNames : List String := ["__init__.py", "responses.py", "schema.py"]

/-- The filesystem state relevant to one `add-routeset` invocation: whether
the target folder `{root}/app/api/{plural}` exists, and the files inside it as
an association list from file name to content. -/
structure RouteFS where
  folderExists : Bool
  files : List (String × String)
deriving DecidableEq

/-- Overwriting an existing file, as `open(path, "w")` followed by a write. -/
def writeFile (files : List (String × String)) (nm content : String) :
    List (String × String) :=
  files.map (fun p => if p.1 = nm then (nm, content) else p)

/-- Embeds `AddRouteTasks._create_route_files` from `cli/commands/add.py`: creates the
route folder and the three empty route files. -/
def create_route_files (fs : RouteFS) : RouteFS :=
  { folderExists := true, files := routeFileNames.map (fun f => (f, "")) }

/-- Embeds `AddRouteTasks._update_files` from `cli/commands/add.py`: writes the
synthesized `__init__.py` and `responses.py` contents (the `schema.py` write
is commented out in the source). -/
def update_files (fs : RouteFS) (initContent respContent : String) : RouteFS :=
  let f1 := writeFile fs.files "__init__.py" initContent
  { fs with files := writeFile f1 "responses.py" respContent }

/-- Embeds `AddSetOfRoutes.build` from `cli/commands/add.py` (lines 89-103) together
with `AddRouteTasks.get_tasks_for_set` (lines 256-282): the folder-existence
check runs before any task; on conflict the command exits with
`FOLDER_EXISTS` and no task runs, otherwise the file-creation and
content-write tasks run and the command exits with `CREATED`.  The synthesized
contents are passed in as the pure values computed before the tasks run. -/
def AddSetOfRoutes.build (fs : RouteFS) (initContent respContent : String) :
    RouteCode × RouteFS :=
  if fs.folderExists then (RouteCode.FOLDER_EXISTS, fs)
  else (RouteCode.CREATED, update_files (create_route_files fs) initContent respContent)

/-- The `chars_to_use` alphabet of `generate_secret_key` from
`auth/utils.py`: `string.ascii_letters + string.digits + "-_"`. -/
def charsToUse : List Char :=
  String.data "abcdefghijklmnopqrstuvwxyzABCDEFGHIJKLMNOPQRSTUVWXYZ0123456789-_"

/-- Embeds `generate_secret_key` from `auth/utils.py` (lines 9-22): converts the bit
size to a byte count with `size // 8` and draws that many characters from the
alphabet.  The `secrets.choice` randomness is passed in as a choice function
over alphabet indices. -/
def generate_secret_key (size : Nat) (choice : Nat → Fin charsToUse.length) : String :=
  String.mk ((List.range (size / 8)).map (fun i => charsToUse.get (choice i)))

/-- A Base64URL-safe character: an ASCII letter, a digit, a dash or an
underscore. -/
def isB64UrlChar (c : Char) : Bool :=
  c.isAlpha || c.isDigit || c = Char.ofNat 45 || c = Char.ofNat 95

/-- The all-zero choice function, drawing the first alphabet character. -/
def zeroChoice : Nat → Fin charsToUse.length := fun _ => ⟨0, by decide⟩

/-- Claim C7 counterexample: `generate_secret_key` at size 512 returns a
64-character string, not an 86-character one, already at the all-zero choice
function. -/
theorem new_key_hs512_not_86_chars :
    (generate_secret_key 512 zeroChoice).length = 64
    ∧ (generate_secret_key 512 zeroChoice).length ≠ 86 :=
  ⟨by decide, by decide⟩

/-- Claim C7 amended: for every choice of random characters, the HS512 secret
key has length `512 // 8 = 64` and every one of its characters is in the
Base64URL-safe alphabet. -/
theorem new_key_hs512_length_64 (choice : Nat → Fin charsToUse.length) :
    (generate_secret_key 512 choice).length = 64
    ∧ ∀ c ∈ (generate_secret_key 512 choice).data, isB64UrlChar c = true := by
  constructor
  · show ((List.range (512 / 8)).map
      (fun i => charsToUse.get (choice i))).length = 64
    simp
  · intro c hc
    have hmem : c ∈ (List.range (512 / 8)).map (fun i => charsToUse.get (choice i)) := hc
    obtain ⟨i, _, hi⟩ := List.mem_map.mp hmem
    have halpha : c ∈ charsToUse :=
      hi ▸ List.get_mem charsToUse (choice i).1 (choice i).2
    have hall : ∀ x ∈ charsToUse, isB64UrlChar x = true := by decide
    exact hall c halpha

/-- Claim C7 amended witness: the amended theorem applied to the all-zero
choice function. -/
theorem new_key_hs512_length_64_witness :
    (generate_secret_key 512 zeroChoice).length = 64 :=
  (new_key_hs512_length_64 zeroChoice).1

/-- The interface of the third-party `inflect` pluralization engine consumed
by `store_name`: `singular_noun` yields the singular form when the input is
recognised as plural and nothing otherwise, `plural_noun` computes a plural. -/
structure InflectEngine where
  singular_noun : String → Option String
  plural_noun : String → String

/-- Embeds `store_name` from `cli/commands/add.py` (lines 29-44): when the engine
reports a singular form the input is the plural, otherwise the input is the
singular and its plural is computed. -/
def store_name (e : InflectEngine) (nm : String) : Name :=
  match e.singular_noun nm with
  | some s => { singular := s, plural := nm }
  | none => { singular := nm, plural := e.plural_noun nm }

/-- Modelled from the spec: the behaviour of the `inflect` engine on the
spec example words, including the irregular pair child/children resolved by
its ruleset rather than a suffix heuristic. -/
def inflectModel : InflectEngine :=
  { singular_noun := fun s =>
      if s = "projects" then some "project"
      else if s = "children" then some "child"
      else none,
    plural_noun := fun s =>
      if s = "child" then "children" else s ++ "s" }

/-- Claim C8: for every engine relating a singular form `s` to a plural `p`,
`store_name` maps both forms to the same `Name` with those fields; in
particular `store_name("projects") = store_name("project") =
Name("project", "projects")` and `store_name("child") =
Name("child", "children")`. -/
theorem store_name_idempotent_across_pair (e : InflectEngine) (s p : String)
    (h1 : e.singular_noun s = none) (h2 : e.plural_noun s = p)
    (h3 : e.singular_noun p = some s) :
    (store_name e s = store_name e p
      ∧ store_name e s = { singular := s, plural := p })
    ∧ store_name inflectModel "projects" = { singular := "project", plural := "projects" }
    ∧ store_name inflectModel "project" = { singular := "project", plural := "projects" }
    ∧ store_name inflectModel "child" = { singular := "child", plural := "children" } := by
  refine ⟨⟨?_, ?_⟩, by decide, by decide, by decide⟩
  · simp [store_name, h1, h2, h3]
  · simp [store_name, h1, h2]

/-- Claim C8 witness: the idempotence theorem applied to the modelled engine
and the pair project/projects. -/
theorem store_name_idempotent_across_pair_witness :
    store_name inflectModel "project" = store_name inflectModel "projects"
    ∧ store_name inflectModel "project"
        = { singular := "project", plural := "projects" } :=
  (store_name_idempotent_across_pair inflectModel "project" "projects"
    (by decide) (by decide) (by decide)).1

/-- Embeds `AddRouteTasks._create_schema_content` from `cli/commands/add.py`
(lines 214-216): the method body is `pass`, so the `schema_content` attribute
keeps its initial value of `None` for every list of routes. -/
def create_schema_content (routes : List Route) : Option String := none

/-- The schema module text the test of the repository itself,
`TestCompleteFiles.test_schema_content_rd` asserts for option "rd" on
"product": the three stub classes `ProductBase`, `Product` and `ProductID`. -/
def expectedSchemaRD : String :=
  String.intercalate "\n"
    ["from pydantic import BaseModel, Field",
     "",
     "",
     "class ProductBase(BaseModel):",
     "    pass",
     "",
     "",
     "class Product(BaseModel):",
     "    pass",
     "",
     "",
     "class ProductID(BaseModel):",
     "    id: int = Field(..., description=\"The ID of the product.\")",
     "",
     "",
     ""]

/-- Claim C9: evaluation of the source schema synthesizer for option "rd" on
"product": the method leaves `schema_content` at `None` rather than producing
the three-class stub module its own test asserts. -/
theorem schema_content_left_unset :
    create_schema_content
        (get_routes (route_dict_set { singular := "product", plural := "products" }) "rd")
      = none
    ∧ create_schema_content
        (get_routes (route_dict_set { singular := "product", plural := "products" }) "rd")
      ≠ some expectedSchemaRD :=
  ⟨rfl, by simp [create_schema_content]⟩

/-- Embeds the `SetupSuccessCodes` enum from `cli/constants/__init__.py`
(lines 66-68): `COMPLETE = 10` and `ALREADY_CONFIGURED = 11`, here as tags. -/
inductive SetupCode where
  | COMPLETE
  | ALREADY_CONFIGURED
deriving DecidableEq

/-- The filesystem state relevant to one `init` invocation: whether the target
project directory exists and the entries it holds. -/
structure ProjectFS where
  pathExists : Bool
  entries : List String
deriving DecidableEq

/-- Embeds `Setup.project_exists` from `cli/commands/setup.py` (lines 38-45): reports
an existing project only when the directory exists and holds at least one
entry. -/
def Setup.project_exists (fs : ProjectFS) : Bool :=
  if fs.pathExists then decide (fs.entries.length > 0) else false

/-- The task list of `SetupTasks.get_tasks` from `cli/commands/setup.py`. -/
def setupTaskNames : List String := ["_make_toml", "_move_assets", "_update_env"]

/-- Embeds `Setup.build` from `cli/commands/setup.py` (lines 47-59): on an existing
project it exits with `ALREADY_CONFIGURED` before any task runs, otherwise it
runs the full task list and exits with `COMPLETE`.  The second component lists
the tasks that ran. -/
def Setup.build (fs : ProjectFS) : SetupCode × List String :=
  if Setup.project_exists fs then (SetupCode.ALREADY_CONFIGURED, [])
  else (SetupCode.COMPLETE, setupTaskNames)

/-- Claim C10: `project_exists` holds exactly when the target directory exists
and is non-empty; `build` on an existing empty directory runs the full task
list and exits with `COMPLETE`, while a non-empty directory exits with
`ALREADY_CONFIGURED` with no task run. -/
theorem setup_build_empty_dir_completes (fs : ProjectFS) :
    (Setup.project_exists fs = true ↔ (fs.pathExists = true ∧ fs.entries ≠ []))
    ∧ (fs.pathExists = true → fs.entries = [] →
        Setup.build fs = (SetupCode.COMPLETE, setupTaskNames))
    ∧ (fs.pathExists = true → fs.entries ≠ [] →
        Setup.build fs = (SetupCode.ALREADY_CONFIGURED, [])) := by
  refine ⟨?_, ?_, ?_⟩
  · cases hp : fs.pathExists <;>
      simp [Setup.project_exists, hp, List.length_pos]
  · intro hp he
    simp [Setup.build, Setup.project_exists, hp, he]
  · intro hp he
    simp [Setup.build, Setup.project_exists, hp, List.length_pos, he]

/-- Claim C10 witness: the theorem applied to an existing empty directory and
to an existing populated one. -/
theorem setup_build_empty_dir_completes_witness :
    Setup.build { pathExists := true, entries := [] }
      = (SetupCode.COMPLETE, setupTaskNames)
    ∧ Setup.build { pathExists := true, entries := ["main.py"] }
      = (SetupCode.ALREADY_CONFIGURED, []) :=
  ⟨(setup_build_empty_dir_completes { pathExists := true, entries := [] }).2.1
      rfl rfl,
   (setup_build_empty_dir_completes { pathExists := true, entries := ["main.py"] }).2.2
      rfl (by decide)⟩

end ZentraApi
